import Mathlib

/-!
Verification development for the transaction-parsing core of the expense-tracker
service (`src/main.py`): `parse_transaction`, `detect_bank_sender`,
`get_category_from_merchant` and `categorize_transaction`.

The Python functions are shallowly embedded as executable Lean definitions:

* strings are `String`/`List Char`; the helpers below implement exactly the
  CPython `re` semantics (leftmost search, greedy quantifiers with
  backtracking) for the four concrete patterns appearing in the source, and
  the CPython `_strptime` semantics for the two date-format cascades used
  there.  ASCII case mapping models `str.upper`/`str.lower`/`re.IGNORECASE`
  (every string constant in the source is ASCII).
* `float(token.replace(',', ''))` is modelled exactly on the token language
  `[0-9,]+(\.[0-9]+)?` produced by the patterns, with rational values; the
  only failing input in that language is an all-comma token, which in the
  source raises `ValueError` and is turned into a structured
  "Parser error: ..." result by the top-level exception handler.
* `datetime.utcnow().date().isoformat()` is an opaque parameter `today`
  threaded through `parse_transaction`.
-/

/-- Result of `parse_transaction` (`src/main.py:260-321`): either the success
dictionary with its seven payload fields, or the error dictionary carrying only
a message (no partial fields). -/
inductive ParseResult where
  | success (amount : ℚ) (date : String) (merchant : String) (note : String)
      (is_bank : Bool) (confidence : ℚ) (suggested_category : String)
  | error (message : String)
deriving DecidableEq

/-- Result of `categorize_transaction` (`src/main.py:363-372`). -/
inductive CatResult where
  | success (suggested_category : String) (confidence : ℚ)
  | error (message : String)
deriving DecidableEq

/-- ASCII model of Python `str.upper()`. -/
def asciiUpper (s : String) : String := String.mk (s.toList.map Char.toUpper)

/-- ASCII model of Python `str.lower()`. -/
def asciiLower (s : String) : String := String.mk (s.toList.map Char.toLower)

/-- Python whitespace stripped by `str.strip()`. -/
def pySpace (c : Char) : Bool :=
  c = ' ' || c = '\t' || c = '\n' || c = '\r' || c = '\x0b' || c = '\x0c'

/-- Model of Python `str.strip()`. -/
def pyStrip (s : String) : String :=
  String.mk (((s.toList.dropWhile pySpace).reverse.dropWhile pySpace).reverse)

/-- Boolean prefix test on character lists. -/
def isPfxChars : List Char → List Char → Bool
  | [], _ => true
  | _ :: _, [] => false
  | p :: ps, c :: cs => p = c && isPfxChars ps cs

/-- Boolean substring test (Python `k in s`). -/
def containsSub (k : List Char) : List Char → Bool
  | [] => k.isEmpty
  | c :: rest => isPfxChars k (c :: rest) || containsSub k rest

/-- `any(k in s for k in ks)`. -/
def containsAnyB (ks : List String) (s : List Char) : Bool :=
  ks.any fun k => containsSub k.toList s

/-- Bank/payment keyword list of `detect_bank_sender` (`src/main.py:331`). -/
def bank_keywords : List String :=
  ["KBL", "KARNATAKA", "SBI", "HDFC", "ICICI", "AXIS", "PNB", "YESBANK",
   "IDFC", "KOTAK", "CANARA", "BANK", "BNK", "PAYTM", "PHONEPE", "GOOGLEPAY",
   "GPAISA", "NBUPAISA"]

/-- Removes one trailing newline, modelling that Python `$` also matches just
before a trailing `'\n'`. -/
def dollarAdjust (l : List Char) : List Char :=
  match l.reverse with
  | '\n' :: r => r.reverse
  | _ => l

/-- Full-string match of `p{lo,hi}`. -/
def shapeRun (p : Char → Bool) (lo hi : Nat) (l : List Char) : Bool :=
  l.all p && decide (lo ≤ l.length) && decide (l.length ≤ hi)

/-- Model of `re.match("^p{lo,hi}$", s)` as a boolean, including the
trailing-newline behaviour of `$`. -/
def matchShape (p : Char → Bool) (lo hi : Nat) (l : List Char) : Bool :=
  shapeRun p lo hi l || shapeRun p lo hi (dollarAdjust l)

/-- Embedding of `detect_bank_sender` (`src/main.py:324-339`): empty sender,
then keyword containment in the uppercased sender, then the two
`re.match` shape rules on the uppercased sender, else the weak default. -/
def detect_bank_sender (sender : String) : Bool × ℚ :=
  if sender = "" then (false, 3/10)
  else
    if containsAnyB bank_keywords (asciiUpper sender).toList then (true, 95/100)
    else if matchShape Char.isUpper 3 15 (asciiUpper sender).toList then (true, 9/10)
    else if matchShape Char.isDigit 3 6 (asciiUpper sender).toList then (true, 8/10)
    else (false, 3/10)

/-- Transportation keywords (`src/main.py:348`). -/
def transport_keywords : List String :=
  ["uber", "ola", "taxi", "cab", "fuel", "petrol", "metro", "bus"]

/-- Food & Dining keywords (`src/main.py:350`). -/
def food_keywords : List String :=
  ["restaurant", "cafe", "dine", "bar", "hotel", "food", "zomato", "swiggy"]

/-- Shopping keywords (`src/main.py:352`). -/
def shopping_keywords : List String :=
  ["flipkart", "amazon", "myntra", "shop", "store", "super", "grocery",
   "grocer", "mall"]

/-- Entertainment keywords (`src/main.py:354`). -/
def entertainment_keywords : List String :=
  ["netflix", "spotify", "movie", "cinema", "pvr", "inox"]

/-- Healthcare keywords (`src/main.py:356`). -/
def health_keywords : List String :=
  ["hospital", "pharmacy", "doctor", "clinic", "medical", "health"]

/-- Bills & Utilities keywords (`src/main.py:358`). -/
def utilities_keywords : List String :=
  ["electricity", "water", "gas", "internet", "mobile", "recharge"]

/-- Embedding of `get_category_from_merchant` (`src/main.py:342-360`). -/
def get_category_from_merchant (merchant : String) : String :=
  if merchant = "" then "Other"
  else
    if containsAnyB transport_keywords (asciiLower merchant).toList then "Transportation"
    else if containsAnyB food_keywords (asciiLower merchant).toList then "Food & Dining"
    else if containsAnyB shopping_keywords (asciiLower merchant).toList then "Shopping"
    else if containsAnyB entertainment_keywords (asciiLower merchant).toList then "Entertainment"
    else if containsAnyB health_keywords (asciiLower merchant).toList then "Healthcare"
    else if containsAnyB utilities_keywords (asciiLower merchant).toList then "Bills & Utilities"
    else "Other"

/- ### Character classes of the four regex patterns -/

/-- Class `[0-9,]` of the amount token. -/
def tokCh (c : Char) : Bool := c.isDigit || c = ','

/-- Class `[₹Rs.]` under `re.IGNORECASE` (rules 1-3). -/
def prefChI (c : Char) : Bool :=
  c = '₹' || c = 'R' || c = 'r' || c = 's' || c = 'S' || c = '.'

/-- Class `[₹Rs.]` without flags (rule 4, `src/main.py:313`). -/
def prefCh4 (c : Char) : Bool := c = '₹' || c = 'R' || c = 's' || c = '.'

/-- Class `[\w &.\-]` of the merchant captures (ASCII `\w`). -/
def wordCh (c : Char) : Bool :=
  c.isAlphanum || c = '_' || c = ' ' || c = '&' || c = '.' || c = '-'

/-- Case-insensitive literal-prefix match (pattern given lowercase); returns
the rest of the input, modelling a literal under `re.IGNORECASE`. -/
def dropPfxI : List Char → List Char → Option (List Char)
  | [], l => some l
  | _ :: _, [] => none
  | p :: ps, c :: cs => if c.toLower = p then dropPfxI ps cs else none

/-- Greedy match of `([0-9,]+(?:\.[0-9]+)?)`, returning the captured token and
the rest.  The classes `[0-9,]` and `[0-9]` are disjoint from every character
that can follow the capture in the four patterns (`' '`, end), so the greedy
match is the unique one and no backtracking into the token is possible. -/
def grabTok (l : List Char) : Option (List Char × List Char) :=
  let run := l.takeWhile tokCh
  if run.isEmpty then none
  else
    match l.drop run.length with
    | '.' :: r2 =>
      let ds := r2.takeWhile Char.isDigit
      if ds.isEmpty then some (run, l.drop run.length)
      else some (run ++ '.' :: ds, r2.drop ds.length)
    | r1 => some (run, r1)

/- ### Rule 4: bare amount, `[₹Rs.]*([0-9,]+(?:\.[0-9]+)?)` (src/main.py:313) -/

/-- Leftmost search for the bare-amount pattern.  Since `[₹Rs.]` and `[0-9,]`
are disjoint, every successful start position routes its capture to the first
`[0-9,]` character of the text, so the leftmost capture is the token run at
that first character. -/
def searchRule4 : List Char → Option (List Char)
  | [] => none
  | c :: rest =>
    if tokCh c then (grabTok (c :: rest)).map Prod.fst
    else searchRule4 rest

/- ### Rule 3: `DEBITED for [₹Rs.]*([0-9,]+(?:\.[0-9]+)?)`, IGNORECASE -/

/-- Match of the rule-3 pattern anchored at the current position. -/
def matchRule3At (l : List Char) : Option (List Char) :=
  match dropPfxI "debited for ".toList l with
  | none => none
  | some r => (grabTok (r.drop ((r.takeWhile prefChI).length))).map Prod.fst

/-- Leftmost `re.search` for the rule-3 pattern (`src/main.py:306`). -/
def searchRule3 : List Char → Option (List Char)
  | [] => none
  | c :: rest =>
    match matchRule3At (c :: rest) with
    | some r => some r
    | none => searchRule3 rest

/- ### Rule 2: bank SMS (src/main.py:287) -/

/-- Greedy match of `[0-9]{2}-[0-9]{2}-[0-9]{2,4}`: the year takes
`min(run, 4)` digits (the following optional group may always match empty, so
the greedy year length is final). -/
def dateGrab2 (l : List Char) : Option (List Char × List Char) :=
  match l with
  | d1 :: d2 :: '-' :: m1 :: m2 :: '-' :: rest =>
    if d1.isDigit && d2.isDigit && m1.isDigit && m2.isDigit then
      let yn := min (rest.takeWhile Char.isDigit).length 4
      if yn < 2 then none
      else some (d1 :: d2 :: '-' :: m1 :: m2 :: '-' :: rest.take yn, rest.drop yn)
    else none
  | _ => none

/-- Inner part of the optional group `(?: .*to ([\w &.\-]+))?` after its
leading space: a greedy `.*` (which cannot cross a newline) followed by
case-insensitive `"to "` and a non-empty `[\w &.\-]+` capture.  Greedy `.*`
means the rightmost viable `"to "` wins, so later positions are preferred. -/
def grabMerchTail : List Char → Option (List Char)
  | [] => none
  | c :: rest =>
    match (if c = '\n' then none else grabMerchTail rest) with
    | some m => some m
    | none =>
      match dropPfxI ['t', 'o', ' '] (c :: rest) with
      | some r3 =>
        let run := r3.takeWhile wordCh
        if run.isEmpty then none else some run
      | none => none

/-- The optional trailing-merchant group of rule 2; `none` models an absent
`m.group(3)`. -/
def optMerch : List Char → Option (List Char)
  | ' ' :: r1 => grabMerchTail r1
  | _ => none

/-- Match of the rule-2 pattern anchored at the current position, returning
(amount token, raw date, optional merchant capture). -/
def matchRule2At (l : List Char) :
    Option (List Char × List Char × Option (List Char)) :=
  match dropPfxI "debited for ".toList l with
  | none => none
  | some r =>
    match grabTok (r.drop ((r.takeWhile prefChI).length)) with
    | none => none
    | some (tok, r3) =>
      match dropPfxI " on ".toList r3 with
      | none => none
      | some r4 =>
        match dateGrab2 r4 with
        | none => none
        | some (ds, r5) => some (tok, ds, optMerch r5)

/-- Leftmost `re.search` for the rule-2 pattern (`src/main.py:287`). -/
def searchRule2 : List Char → Option (List Char × List Char × Option (List Char))
  | [] => none
  | c :: rest =>
    match matchRule2At (c :: rest) with
    | some r => some r
    | none => searchRule2 rest

/- ### Rule 1: payment confirmation (src/main.py:273) -/

/-- Greedy match of `[A-Za-z]{3,} [0-9]{4}` (month name and year of the rule-1
date capture); trailing input after the four year digits is allowed. -/
def monthYearGrab (l : List Char) : Option (List Char) :=
  let mrun := l.takeWhile Char.isAlpha
  if mrun.length < 3 then none
  else
    match l.drop mrun.length with
    | ' ' :: r2 =>
      match r2 with
      | y1 :: y2 :: y3 :: y4 :: _ =>
        if y1.isDigit && y2.isDigit && y3.isDigit && y4.isDigit then
          some (mrun ++ ' ' :: [y1, y2, y3, y4])
        else none
      | _ => none
    | _ => none

/-- Greedy match of the rule-1 date `[0-9]{1,2} [A-Za-z]{3,} [0-9]{4}`:
two day digits are preferred; if the third character is not a space the
one-digit alternative needs a space as second character, which is a digit,
so the whole date fails. -/
def dateGrab1 (l : List Char) : Option (List Char) :=
  match l with
  | a :: b :: rest =>
    if a.isDigit then
      if b.isDigit then
        match rest with
        | ' ' :: r2 => (monthYearGrab r2).map (fun my => a :: b :: ' ' :: my)
        | _ => none
      else if b = ' ' then (monthYearGrab rest).map (fun my => a :: ' ' :: my)
      else none
    else none
  | _ => none

/-- Backtracking over the greedy merchant capture `([\w &.\-]+)` of rule 1:
try the longest candidate length first, requiring case-insensitive `" on "`
and the date pattern after the split. -/
def tryMerchSplits (r : List Char) : Nat → Option (List Char × List Char)
  | 0 => none
  | j + 1 =>
    match dropPfxI " on ".toList (r.drop (j + 1)) with
    | some r4 =>
      match dateGrab1 r4 with
      | some ds => some (r.take (j + 1), ds)
      | none => tryMerchSplits r j
    | none => tryMerchSplits r j

/-- Match of the rule-1 pattern anchored at the current position, returning
(amount token, merchant capture, date capture). -/
def matchRule1At (l : List Char) :
    Option (List Char × List Char × List Char) :=
  match dropPfxI "paid ".toList l with
  | none => none
  | some r =>
    match grabTok (r.drop ((r.takeWhile prefChI).length)) with
    | none => none
    | some (tok, r3) =>
      match dropPfxI " to ".toList r3 with
      | none => none
      | some r4 =>
        match tryMerchSplits r4 ((r4.takeWhile wordCh).length) with
        | some (merch, ds) => some (tok, merch, ds)
        | none => none

/-- Leftmost `re.search` for the rule-1 pattern (`src/main.py:273`). -/
def searchRule1 : List Char → Option (List Char × List Char × List Char)
  | [] => none
  | c :: rest =>
    match matchRule1At (c :: rest) with
    | some r => some r
    | none => searchRule1 rest

/- ### Numeric conversion and date formatting -/

/-- Decimal value of a digit run. -/
def natOfDigits (l : List Char) : Nat :=
  l.foldl (fun n c => 10 * n + (c.toNat - 48)) 0

/-- `float` on the comma-stripped token language `[0-9]*(\.[0-9]+)?`: the only
failing input is the empty string (an all-comma capture). -/
def floatCore (t : List Char) : Option ℚ :=
  if t.isEmpty then none
  else
    let ip := t.takeWhile Char.isDigit
    match t.drop ip.length with
    | [] => some ((natOfDigits ip : ℕ) : ℚ)
    | '.' :: fs =>
      if !fs.isEmpty && fs.all Char.isDigit then
        some (((natOfDigits ip : ℕ) : ℚ) + ((natOfDigits fs : ℕ) : ℚ) / (10 : ℚ) ^ fs.length)
      else none
    | _ => none

/-- Embedding of `float(m.group(1).replace(',', ''))` (`src/main.py:275` etc.). -/
def floatOfToken (tok : List Char) : Option ℚ :=
  floatCore (tok.filter (fun c => c != ','))

/-- Gregorian leap-year rule used by `datetime`. -/
def isLeapYear (y : Nat) : Bool :=
  y % 4 == 0 && (y % 100 != 0 || y % 400 == 0)

/-- Days in a month as validated by the `datetime` constructor. -/
def daysInMonth (y mo : Nat) : Nat :=
  if mo = 2 then (if isLeapYear y then 29 else 28)
  else if mo = 4 ∨ mo = 6 ∨ mo = 9 ∨ mo = 11 then 30
  else 31

/-- Zero-padded decimal rendering used by `date.isoformat()`. -/
def padZeros (w n : Nat) : String :=
  String.mk (List.replicate (w - (toString n).length) '0' ++ (toString n).toList)

/-- `date(y, mo, d).isoformat()`. -/
def isoOfYMD (y mo d : Nat) : String :=
  padZeros 4 y ++ "-" ++ padZeros 2 mo ++ "-" ++ padZeros 2 d

/-- Two-digit decimal value. -/
def twoDigitVal (a b : Char) : Nat := 10 * (a.toNat - 48) + (b.toNat - 48)

/-- CPython `strptime` `%d` directive on the day digit run: the regex
`3[01]|[12]\d|0[1-9]|[1-9]` accepts exactly the values 1..31, one or two
digits, rejecting `00` (three or more digits never fit the following
separator). -/
def dayVal : List Char → Option Nat
  | [a] =>
    if a.isDigit && decide (1 ≤ a.toNat - 48) then some (a.toNat - 48) else none
  | [a, b] =>
    if a.isDigit && b.isDigit then
      let v := twoDigitVal a b
      if 1 ≤ v ∧ v ≤ 31 then some v else none
    else none
  | _ => none

/-- CPython `strptime` `%m` directive on a two-digit month: values 1..12,
rejecting `00`. -/
def monthVal2 (m1 m2 : Char) : Option Nat :=
  if m1.isDigit && m2.isDigit then
    let v := twoDigitVal m1 m2
    if 1 ≤ v ∧ v ≤ 12 then some v else none
  else none

/-- CPython `strptime` `%b` directive: exactly one of the twelve
case-insensitive three-letter month abbreviations (input lowercased). -/
def monthNum (m : List Char) : Option Nat :=
  if m = ['j','a','n'] then some 1
  else if m = ['f','e','b'] then some 2
  else if m = ['m','a','r'] then some 3
  else if m = ['a','p','r'] then some 4
  else if m = ['m','a','y'] then some 5
  else if m = ['j','u','n'] then some 6
  else if m = ['j','u','l'] then some 7
  else if m = ['a','u','g'] then some 8
  else if m = ['s','e','p'] then some 9
  else if m = ['o','c','t'] then some 10
  else if m = ['n','o','v'] then some 11
  else if m = ['d','e','c'] then some 12
  else none

/-- `datetime.strptime(ds, "%d %b %Y").date().isoformat()` as an `Option`
(`src/main.py:278`): `%Y` requires exactly four digits and the whole string
must be consumed; construction fails for year 0 or a day beyond the month
length, which the source catches and turns into the current-date fallback. -/
def strptime_dBY (ds : List Char) : Option String :=
  let dr := ds.takeWhile Char.isDigit
  match dayVal dr, ds.drop dr.length with
  | some d, ' ' :: r2 =>
    let mrun := r2.takeWhile Char.isAlpha
    match monthNum (mrun.map Char.toLower), r2.drop mrun.length with
    | some mo, ' ' :: r3 =>
      match r3 with
      | [y1, y2, y3, y4] =>
        if y1.isDigit && y2.isDigit && y3.isDigit && y4.isDigit then
          let y := natOfDigits [y1, y2, y3, y4]
          if 1 ≤ y ∧ d ≤ daysInMonth y mo then some (isoOfYMD y mo d) else none
        else none
      | _ => none
    | _, _ => none
  | _, _ => none

/-- The rule-2 date cascade (`src/main.py:293-298`): try
`strptime(raw, "%d-%m-%Y")` (four-digit year, full consumption), then
`strptime(raw, "%d-%m-%y")` (two-digit year, `≤ 68` mapping to 2000+), each
attempt also failing on an invalid calendar date. -/
def strptime_rule2 (ds : List Char) : Option String :=
  match ds with
  | d1 :: d2 :: '-' :: m1 :: m2 :: '-' :: ys =>
    match dayVal [d1, d2], monthVal2 m1 m2 with
    | some d, some mo =>
      let tryY : Option String :=
        match ys with
        | [y1, y2, y3, y4] =>
          if y1.isDigit && y2.isDigit && y3.isDigit && y4.isDigit then
            let y := natOfDigits ys
            if 1 ≤ y ∧ d ≤ daysInMonth y mo then some (isoOfYMD y mo d) else none
          else none
        | _ => none
      match tryY with
      | some r => some r
      | none =>
        match ys with
        | [y1, y2] =>
          if y1.isDigit && y2.isDigit then
            let yv := natOfDigits ys
            let y := if yv ≤ 68 then 2000 + yv else 1900 + yv
            if d ≤ daysInMonth y mo then some (isoOfYMD y mo d) else none
          else none
        | _ => none
    | _, _ => none
  | _ => none

/-- Message produced by the top-level exception handler (`src/main.py:321`)
when `float('')` raises on an all-comma capture. -/
def floatErrMsg : String := "Parser error: could not convert string to float: ''"

/-- Embedding of `parse_transaction` (`src/main.py:260-321`).  `today` stands
for `datetime.utcnow().date().isoformat()`; `sender = none` models the `None`
default.  The four regex rules are tried in source order; a rule whose
captured token fails `float` conversion propagates to the top-level handler
as a "Parser error" result. -/
def parse_transaction (today text : String) (sender : Option String) : ParseResult :=
  match searchRule1 text.toList with
  | some (tok, merch, ds) =>
    match floatOfToken tok with
    | none => ParseResult.error floatErrMsg
    | some amount =>
      ParseResult.success amount ((strptime_dBY ds).getD today)
        (pyStrip (String.mk merch)) text true (9/10)
        (get_category_from_merchant (pyStrip (String.mk merch)))
  | none =>
    match searchRule2 text.toList with
    | some (tok, ds, mo) =>
      match floatOfToken tok with
      | none => ParseResult.error floatErrMsg
      | some amount =>
        ParseResult.success amount ((strptime_rule2 ds).getD today)
          (if pyStrip (String.mk (mo.getD [])) = "" then "Bank"
           else pyStrip (String.mk (mo.getD [])))
          text
          (detect_bank_sender (pyStrip (sender.getD ""))).1
          (detect_bank_sender (pyStrip (sender.getD ""))).2
          (if pyStrip (String.mk (mo.getD [])) = "" then "Bills & Utilities"
           else get_category_from_merchant (pyStrip (String.mk (mo.getD []))))
    | none =>
      match searchRule3 text.toList with
      | some tok =>
        match floatOfToken tok with
        | none => ParseResult.error floatErrMsg
        | some amount =>
          ParseResult.success amount today "Bank" text
            (detect_bank_sender (pyStrip (sender.getD ""))).1
            (detect_bank_sender (pyStrip (sender.getD ""))).2
            "Bills & Utilities"
      | none =>
        match searchRule4 text.toList with
        | some tok =>
          match floatOfToken tok with
          | none => ParseResult.error floatErrMsg
          | some amount =>
            ParseResult.success amount today "Unknown" text
              (detect_bank_sender (pyStrip (sender.getD ""))).1
              (detect_bank_sender (pyStrip (sender.getD ""))).2
              "Other"
        | none => ParseResult.error "Could not parse transaction"

/-- Embedding of `categorize_transaction` (`src/main.py:363-372`): on a parse
success it projects category and confidence; on any parse failure it returns
its own fixed message. -/
def categorize_transaction (today text : String) (sender : Option String) : CatResult :=
  match parse_transaction today text sender with
  | ParseResult.success _ _ _ _ _ cf cat => CatResult.success cat cf
  | ParseResult.error _ => CatResult.error "Could not categorize"

/-- The fixed category set of the specification glossary. -/
def categorySet : List String :=
  ["Food & Dining", "Transportation", "Shopping", "Entertainment",
   "Bills & Utilities", "Healthcare", "Travel", "Education", "Business",
   "Other"]

/-- Projection of the amount field of a parse result. -/
def amountOf : ParseResult → Option ℚ
  | ParseResult.success a _ _ _ _ _ _ => some a
  | ParseResult.error _ => none

/-- Comparison definition following the words of claim C2: the keyword rule
case-normalizes the sender, but the two shape rules are stated on the sender
itself ("sender composed entirely of 3-15 uppercase letters"). -/
def detect_sender_claimC2 (sender : String) : Bool × ℚ :=
  if sender = "" then (false, 3/10)
  else
    if containsAnyB bank_keywords (asciiUpper sender).toList then (true, 95/100)
    else if matchShape Char.isUpper 3 15 sender.toList then (true, 9/10)
    else if matchShape Char.isDigit 3 6 sender.toList then (true, 8/10)
    else (false, 3/10)

/-- Comparison definition following the words of claim C3: a rule whose
captured numeric token fails conversion is treated as a non-match for that
rule, cascading to the next rule instead of aborting the parse. -/
def parse_transaction_claimC3 (today text : String) (sender : Option String) : ParseResult :=
  let r1 : Option ParseResult :=
    match searchRule1 text.toList with
    | some (tok, merch, ds) =>
      (floatOfToken tok).map fun amount =>
        ParseResult.success amount ((strptime_dBY ds).getD today)
          (pyStrip (String.mk merch)) text true (9/10)
          (get_category_from_merchant (pyStrip (String.mk merch)))
    | none => none
  let r2 : Option ParseResult :=
    match searchRule2 text.toList with
    | some (tok, ds, mo) =>
      (floatOfToken tok).map fun amount =>
        ParseResult.success amount ((strptime_rule2 ds).getD today)
          (if pyStrip (String.mk (mo.getD [])) = "" then "Bank"
           else pyStrip (String.mk (mo.getD []))) text
          (detect_bank_sender (pyStrip (sender.getD ""))).1
          (detect_bank_sender (pyStrip (sender.getD ""))).2
          (if pyStrip (String.mk (mo.getD [])) = "" then "Bills & Utilities"
           else get_category_from_merchant (pyStrip (String.mk (mo.getD []))))
    | none => none
  let r3 : Option ParseResult :=
    match searchRule3 text.toList with
    | some tok =>
      (floatOfToken tok).map fun amount =>
        ParseResult.success amount today "Bank" text
          (detect_bank_sender (pyStrip (sender.getD ""))).1
          (detect_bank_sender (pyStrip (sender.getD ""))).2
          "Bills & Utilities"
    | none => none
  let r4 : Option ParseResult :=
    match searchRule4 text.toList with
    | some tok =>
      (floatOfToken tok).map fun amount =>
        ParseResult.success amount today "Unknown" text
          (detect_bank_sender (pyStrip (sender.getD ""))).1
          (detect_bank_sender (pyStrip (sender.getD ""))).2
          "Other"
    | none => none
  ((((r1.orElse fun _ => r2).orElse fun _ => r3).orElse fun _ => r4).getD
    (ParseResult.error "Could not parse transaction"))

/-- Helper: a filter by a predicate false on every element is empty. -/
theorem filterEqNilOf (p : Char → Bool) :
    ∀ l : List Char, (∀ c ∈ l, p c = false) → l.filter p = [] := by
  intro l h
  induction l with
  | nil => rfl
  | cons c cs ih =>
    have hc := h c (List.mem_cons_self c cs)
    have hcs := ih fun x hx => h x (List.mem_cons_of_mem c hx)
    simp [List.filter_cons, hc, hcs]

/-- Helper: an empty ASCII-lowered string comes from an empty string. -/
theorem asciiLowerEqEmpty (m : String) : asciiLower m = "" ↔ m = "" := by
  cases m with
  | mk d =>
    simp [asciiLower, String.toList, String.ext_iff]

/-- Claim C2 (corrected), counterexample: for the keyword-free lowercase
sender "abc" the code returns `(true, 0.9)` — the uppercase-shape rule is
applied to the uppercased sender — while the claimed cascade, whose shape
rules read the sender as given, falls through to `(false, 0.3)`. -/
theorem claim_c2_counterexample :
    detect_bank_sender "abc" = (true, 9/10) ∧
    detect_sender_claimC2 "abc" = (false, 3/10) := ⟨rfl, rfl⟩

/-- Claim C2 (amended): `detect_bank_sender` is exactly the five-rule cascade
in the stated order, except that the uppercase-letter and digit shape rules
are evaluated on the case-normalized (uppercased) sender; consequently a
keyword-free sender of 3-15 letters of any case yields `(true, 0.9)`, as the
final conjunct shows for "abc". -/
theorem claim_c2_amended_cascade :
    (∀ s : String, s = "" → detect_bank_sender s = (false, 3/10)) ∧
    (∀ s : String, s ≠ "" →
      containsAnyB bank_keywords (asciiUpper s).toList = true →
      detect_bank_sender s = (true, 95/100)) ∧
    (∀ s : String, s ≠ "" →
      containsAnyB bank_keywords (asciiUpper s).toList = false →
      matchShape Char.isUpper 3 15 (asciiUpper s).toList = true →
      detect_bank_sender s = (true, 9/10)) ∧
    (∀ s : String, s ≠ "" →
      containsAnyB bank_keywords (asciiUpper s).toList = false →
      matchShape Char.isUpper 3 15 (asciiUpper s).toList = false →
      matchShape Char.isDigit 3 6 (asciiUpper s).toList = true →
      detect_bank_sender s = (true, 8/10)) ∧
    (∀ s : String, s ≠ "" →
      containsAnyB bank_keywords (asciiUpper s).toList = false →
      matchShape Char.isUpper 3 15 (asciiUpper s).toList = false →
      matchShape Char.isDigit 3 6 (asciiUpper s).toList = false →
      detect_bank_sender s = (false, 3/10)) ∧
    detect_bank_sender "abc" = (true, 9/10) := by
  refine ⟨?_, ?_, ?_, ?_, ?_, rfl⟩
  · intro s hs; simp [detect_bank_sender, hs]
  · intro s hs hk
    simp only [String.toList] at hk
    simp [detect_bank_sender, hs, hk]
  · intro s hs hk hu
    simp only [String.toList] at hk hu
    simp [detect_bank_sender, hs, hk, hu]
  · intro s hs hk hu hd
    simp only [String.toList] at hk hu hd
    simp [detect_bank_sender, hs, hk, hu, hd]
  · intro s hs hk hu hd
    simp only [String.toList] at hk hu hd
    simp [detect_bank_sender, hs, hk, hu, hd]

/-- Claim C2, witness: the amended cascade applied at one concrete sender per
branch. -/
theorem claim_c2_witness :
    detect_bank_sender "HDFCBK" = (true, 95/100) ∧
    detect_bank_sender "abc" = (true, 9/10) ∧
    detect_bank_sender "1234" = (true, 8/10) ∧
    detect_bank_sender "a-1" = (false, 3/10) ∧
    detect_bank_sender "" = (false, 3/10) :=
  ⟨claim_c2_amended_cascade.2.1 "HDFCBK" (by decide) (by decide),
   claim_c2_amended_cascade.2.2.1 "abc" (by decide) (by decide) (by decide),
   claim_c2_amended_cascade.2.2.2.1 "1234" (by decide) (by decide) (by decide) (by decide),
   claim_c2_amended_cascade.2.2.2.2.1 "a-1" (by decide) (by decide) (by decide) (by decide),
   claim_c2_amended_cascade.1 "" rfl⟩

/-- Claim C8 (confirmed): `get_category_from_merchant` returns "Other" on the
empty merchant; otherwise it tests the keyword groups on the lowercased
merchant in the fixed order Transportation, Food & Dining, Shopping,
Entertainment, Healthcare, Bills & Utilities, returning the first group's
category on any substring hit and "Other" when none hits; and the lookup is
case-insensitive (it depends only on the lowercased merchant, so a merchant
containing both a Transportation and a Shopping keyword resolves to
"Transportation", as the witness instantiates). -/
theorem claim_c8_category_cascade :
    (get_category_from_merchant "" = "Other") ∧
    (∀ m : String,
      containsAnyB transport_keywords (asciiLower m).toList = true →
      get_category_from_merchant m = "Transportation") ∧
    (∀ m : String,
      containsAnyB transport_keywords (asciiLower m).toList = false →
      containsAnyB food_keywords (asciiLower m).toList = true →
      get_category_from_merchant m = "Food & Dining") ∧
    (∀ m : String,
      containsAnyB transport_keywords (asciiLower m).toList = false →
      containsAnyB food_keywords (asciiLower m).toList = false →
      containsAnyB shopping_keywords (asciiLower m).toList = true →
      get_category_from_merchant m = "Shopping") ∧
    (∀ m : String,
      containsAnyB transport_keywords (asciiLower m).toList = false →
      containsAnyB food_keywords (asciiLower m).toList = false →
      containsAnyB shopping_keywords (asciiLower m).toList = false →
      containsAnyB entertainment_keywords (asciiLower m).toList = true →
      get_category_from_merchant m = "Entertainment") ∧
    (∀ m : String,
      containsAnyB transport_keywords (asciiLower m).toList = false →
      containsAnyB food_keywords (asciiLower m).toList = false →
      containsAnyB shopping_keywords (asciiLower m).toList = false →
      containsAnyB entertainment_keywords (asciiLower m).toList = false →
      containsAnyB health_keywords (asciiLower m).toList = true →
      get_category_from_merchant m = "Healthcare") ∧
    (∀ m : String,
      containsAnyB transport_keywords (asciiLower m).toList = false →
      containsAnyB food_keywords (asciiLower m).toList = false →
      containsAnyB shopping_keywords (asciiLower m).toList = false →
      containsAnyB entertainment_keywords (asciiLower m).toList = false →
      containsAnyB health_keywords (asciiLower m).toList = false →
      containsAnyB utilities_keywords (asciiLower m).toList = true →
      get_category_from_merchant m = "Bills & Utilities") ∧
    (∀ m : String,
      containsAnyB transport_keywords (asciiLower m).toList = false →
      containsAnyB food_keywords (asciiLower m).toList = false →
      containsAnyB shopping_keywords (asciiLower m).toList = false →
      containsAnyB entertainment_keywords (asciiLower m).toList = false →
      containsAnyB health_keywords (asciiLower m).toList = false →
      containsAnyB utilities_keywords (asciiLower m).toList = false →
      get_category_from_merchant m = "Other") ∧
    (∀ m₁ m₂ : String, asciiLower m₁ = asciiLower m₂ →
      get_category_from_merchant m₁ = get_category_from_merchant m₂) := by
  refine ⟨rfl, ?_, ?_, ?_, ?_, ?_, ?_, ?_, ?_⟩
  · intro m h1
    by_cases hm : m = ""
    · subst hm; exact absurd h1 (by decide)
    · simp only [String.toList] at h1
      simp [get_category_from_merchant, hm, h1]
  · intro m h1 h2
    by_cases hm : m = ""
    · subst hm; exact absurd h2 (by decide)
    · simp only [String.toList] at h1 h2
      simp [get_category_from_merchant, hm, h1, h2]
  · intro m h1 h2 h3
    by_cases hm : m = ""
    · subst hm; exact absurd h3 (by decide)
    · simp only [String.toList] at h1 h2 h3
      simp [get_category_from_merchant, hm, h1, h2, h3]
  · intro m h1 h2 h3 h4
    by_cases hm : m = ""
    · subst hm; exact absurd h4 (by decide)
    · simp only [String.toList] at h1 h2 h3 h4
      simp [get_category_from_merchant, hm, h1, h2, h3, h4]
  · intro m h1 h2 h3 h4 h5
    by_cases hm : m = ""
    · subst hm; exact absurd h5 (by decide)
    · simp only [String.toList] at h1 h2 h3 h4 h5
      simp [get_category_from_merchant, hm, h1, h2, h3, h4, h5]
  · intro m h1 h2 h3 h4 h5 h6
    by_cases hm : m = ""
    · subst hm; exact absurd h6 (by decide)
    · simp only [String.toList] at h1 h2 h3 h4 h5 h6
      simp [get_category_from_merchant, hm, h1, h2, h3, h4, h5, h6]
  · intro m h1 h2 h3 h4 h5 h6
    by_cases hm : m = ""
    · subst hm; rfl
    · simp only [String.toList] at h1 h2 h3 h4 h5 h6
      simp [get_category_from_merchant, hm, h1, h2, h3, h4, h5, h6]
  · intro m1 m2 hlow
    by_cases h1 : m1 = ""
    · have h2 : m2 = "" := by
        rw [h1] at hlow
        exact (asciiLowerEqEmpty m2).mp hlow.symm
      rw [h1, h2]
    · have h2 : m2 ≠ "" := by
        intro h2
        rw [h2] at hlow
        exact h1 ((asciiLowerEqEmpty m1).mp hlow)
      simp only [get_category_from_merchant]
      rw [if_neg h1, if_neg h2, hlow]

/-- Claim C8, witness: one concrete merchant per branch; "Uber Store"
contains both a Transportation and a Shopping keyword and resolves to
"Transportation"; "SWIGGY" exercises case-insensitive lookup. -/
theorem claim_c8_witness :
    get_category_from_merchant "Uber Store" = "Transportation" ∧
    get_category_from_merchant "Swiggy" = "Food & Dining" ∧
    get_category_from_merchant "Big Mall" = "Shopping" ∧
    get_category_from_merchant "Netflix" = "Entertainment" ∧
    get_category_from_merchant "City Clinic" = "Healthcare" ∧
    get_category_from_merchant "Jio recharge" = "Bills & Utilities" ∧
    get_category_from_merchant "xyz" = "Other" ∧
    get_category_from_merchant "SWIGGY" = get_category_from_merchant "swiggy" :=
  ⟨claim_c8_category_cascade.2.1 "Uber Store" (by decide),
   claim_c8_category_cascade.2.2.1 "Swiggy" (by decide) (by decide),
   claim_c8_category_cascade.2.2.2.1 "Big Mall" (by decide) (by decide) (by decide),
   claim_c8_category_cascade.2.2.2.2.1 "Netflix" (by decide) (by decide) (by decide) (by decide),
   claim_c8_category_cascade.2.2.2.2.2.1 "City Clinic" (by decide) (by decide) (by decide)
     (by decide) (by decide),
   claim_c8_category_cascade.2.2.2.2.2.2.1 "Jio recharge" (by decide) (by decide) (by decide)
     (by decide) (by decide) (by decide),
   claim_c8_category_cascade.2.2.2.2.2.2.2.1 "xyz" (by decide) (by decide) (by decide)
     (by decide) (by decide) (by decide),
   claim_c8_category_cascade.2.2.2.2.2.2.2.2 "SWIGGY" "swiggy" (by decide)⟩

/-- Claim C4 (corrected), counterexample: on "hello" the parse fails with the
message "Could not parse transaction", but `categorize_transaction` returns
its own fixed message "Could not categorize", not the parse message. -/
theorem claim_c4_counterexample :
    parse_transaction "2026-01-01" "hello" none =
      ParseResult.error "Could not parse transaction" ∧
    categorize_transaction "2026-01-01" "hello" none =
      CatResult.error "Could not categorize" ∧
    ("Could not categorize" : String) ≠ "Could not parse transaction" :=
  ⟨rfl, rfl, by decide⟩

/-- Claim C4 (amended): whenever `parse_transaction` returns a failure,
`categorize_transaction` on the same inputs also returns a failure, but with
the fixed message "Could not categorize" rather than the parse message. -/
theorem claim_c4_amended_propagation (today text : String) (sender : Option String)
    (msg : String)
    (h : parse_transaction today text sender = ParseResult.error msg) :
    categorize_transaction today text sender = CatResult.error "Could not categorize" := by
  unfold categorize_transaction
  rw [h]

/-- Claim C4, witness: the amended propagation applied to the failing parse of
"hello". -/
theorem claim_c4_witness :
    categorize_transaction "2026-04-01" "hello" none =
      CatResult.error "Could not categorize" :=
  claim_c4_amended_propagation "2026-04-01" "hello" none "Could not parse transaction" rfl

/-- Claim C9 (confirmed): amount extraction strips comma thousands separators
before conversion, so any two captured tokens agreeing after comma removal
produce the same decimal value; in particular two rule-1 texts that differ
only in the formatting "1,234.50" versus "1234.50" parse to the same amount. -/
theorem claim_c9_comma_invariance :
    (∀ t1 t2 : List Char,
      t1.filter (fun c => c != ',') = t2.filter (fun c => c != ',') →
      floatOfToken t1 = floatOfToken t2) ∧
    (∀ (today : String) (sender : Option String),
      amountOf (parse_transaction today "paid Rs.1,234.50 to Swiggy on 5 Mar 2026" sender) =
      amountOf (parse_transaction today "paid Rs.1234.50 to Swiggy on 5 Mar 2026" sender)) := by
  constructor
  · intro t1 t2 h
    unfold floatOfToken
    rw [h]
  · intro today sender
    rfl

/-- Claim C9, witness: the token-level invariance applied to "1,234.50" and
"1234.50". -/
theorem claim_c9_witness :
    floatOfToken "1,234.50".toList = floatOfToken "1234.50".toList :=
  claim_c9_comma_invariance.1 "1,234.50".toList "1234.50".toList (by decide)

/-- Claim C1 (confirmed): parsing the bank SMS
"debited for Rs.500 on 12-01-26 trf to John Store" with sender "HDFCBK"
succeeds with `is_bank = true` and confidence 0.95 (the HDFC keyword branch,
beating the uppercase-shape branch), date "2026-01-12" (the `%d-%m-%Y`
attempt needs four year digits, so "26" resolves through `%d-%m-%y` to 2026),
and the suggested category is the keyword lookup on the captured merchant
"John Store" (which yields "Shopping" via the "store" keyword).  The result
does not depend on the evaluation date `today`. -/
theorem claim_c1_debit_scenario (today : String) :
    parse_transaction today "debited for Rs.500 on 12-01-26 trf to John Store" (some "HDFCBK") =
      ParseResult.success ((500 : ℕ) : ℚ) "2026-01-12" "John Store"
        "debited for Rs.500 on 12-01-26 trf to John Store" true (95/100)
        (get_category_from_merchant "John Store") ∧
    get_category_from_merchant "John Store" = "Shopping" :=
  ⟨rfl, rfl⟩

/-- Claim C6 (confirmed): the scenario
`parse_transaction "paid ₹250.00 to Swiggy on 5 Mar 2026" None` returns
exactly the claimed success record; and in general, whenever the rule-1
payment-confirmation pattern matches with a convertible amount token and a
literal date accepted by `%d %b %Y`, the result is a success with
`is_bank = true`, confidence 0.9, and the date equal to that literal date in
ISO form (for any sender and any evaluation date). -/
theorem claim_c6_paid_pattern :
    (∀ today : String,
      parse_transaction today "paid ₹250.00 to Swiggy on 5 Mar 2026" none =
        ParseResult.success (250 : ℚ) "2026-03-05" "Swiggy"
          "paid ₹250.00 to Swiggy on 5 Mar 2026" true (9/10) "Food & Dining") ∧
    (∀ (today text : String) (sender : Option String) (tok merch ds : List Char)
        (amt : ℚ) (iso : String),
      searchRule1 text.toList = some (tok, merch, ds) →
      floatOfToken tok = some amt →
      strptime_dBY ds = some iso →
      parse_transaction today text sender =
        ParseResult.success amt iso (pyStrip (String.mk merch)) text true (9/10)
          (get_category_from_merchant (pyStrip (String.mk merch)))) := by
  constructor
  · intro today
    rw [show parse_transaction today "paid ₹250.00 to Swiggy on 5 Mar 2026" none =
        ParseResult.success (((250 : ℕ) : ℚ) + ((0 : ℕ) : ℚ)/(10 : ℚ)^2) "2026-03-05" "Swiggy"
          "paid ₹250.00 to Swiggy on 5 Mar 2026" true (9/10) "Food & Dining" from rfl]
    norm_num
  · intro today text sender tok merch ds amt iso h1 h2 h3
    unfold parse_transaction
    rw [h1]
    simp only [h2, h3, Option.getD_some]

/-- Claim C6, witness: the general rule-1 property applied to the scenario
text itself. -/
theorem claim_c6_witness :
    parse_transaction "1999-12-31" "paid ₹250.00 to Swiggy on 5 Mar 2026" none =
      ParseResult.success (((250 : ℕ) : ℚ) + ((0 : ℕ) : ℚ)/(10 : ℚ)^2) "2026-03-05" "Swiggy"
        "paid ₹250.00 to Swiggy on 5 Mar 2026" true (9/10)
        (get_category_from_merchant (pyStrip (String.mk "Swiggy".toList))) :=
  claim_c6_paid_pattern.2 "1999-12-31" "paid ₹250.00 to Swiggy on 5 Mar 2026" none
    "250.00".toList "Swiggy".toList "5 Mar 2026".toList
    (((250 : ℕ) : ℚ) + ((0 : ℕ) : ℚ)/(10 : ℚ)^2) "2026-03-05" rfl rfl rfl

/-- Helper: elements of `takeWhile` belong to the list. -/
theorem memOfTakeWhile {p : Char → Bool} {l : List Char} {c : Char}
    (h : c ∈ l.takeWhile p) : c ∈ l :=
  (List.takeWhile_prefix p).subset h

/-- Helper: elements of `takeWhile` satisfy the predicate. -/
theorem predOfTakeWhile {p : Char → Bool} {l : List Char} {c : Char}
    (h : c ∈ l.takeWhile p) : p c = true :=
  List.mem_takeWhile_imp h

/-- Helper: elements of `drop` belong to the list. -/
theorem memOfDrop {n : Nat} {l : List Char} {c : Char} (h : c ∈ l.drop n) : c ∈ l :=
  List.drop_subset n l h

/-- Helper: `dropPfxI` returns a suffix, so its elements belong to the input. -/
theorem memOfDropPfxI {pat l r : List Char} (h : dropPfxI pat l = some r) {c : Char}
    (hc : c ∈ r) : c ∈ l := by
  induction pat generalizing l with
  | nil =>
    unfold dropPfxI at h
    cases h
    exact hc
  | cons p ps ih =>
    cases l with
    | nil => simp [dropPfxI] at h
    | cons a as =>
      unfold dropPfxI at h
      split at h
      · exact List.mem_cons_of_mem a (ih h)
      · cases h

/-- Helper: the rest returned by `grabTok` consists of elements of the input. -/
theorem grabTokRestMem {l tok r : List Char} (h : grabTok l = some (tok, r)) :
    ∀ c ∈ r, c ∈ l := by
  simp only [grabTok] at h
  split at h
  · cases h
  · split at h
    case h_1 r2 heq =>
      split at h
      · cases h
        exact fun c hc => memOfDrop hc
      · cases h
        intro c hc
        have hmem : c ∈ ('.' :: r2) := List.mem_cons_of_mem _ (memOfDrop hc)
        rw [← heq] at hmem
        exact memOfDrop hmem
    case h_2 =>
      cases h
      exact fun c hc => memOfDrop hc

/-- Helper: on a digit-free input, the token captured by `grabTok` is all
commas, so the comma-stripped token is empty. -/
theorem grabTokNoDigit {l tok r : List Char}
    (hl : ∀ c ∈ l, c.isDigit = false) (h : grabTok l = some (tok, r)) :
    tok.filter (fun c => c != ',') = [] := by
  have hrun : (l.takeWhile tokCh).filter (fun c => c != ',') = [] := by
    refine filterEqNilOf _ _ fun c hc => ?_
    have htok := predOfTakeWhile hc
    have hd := hl c (memOfTakeWhile hc)
    have hcc : c = ',' := by
      simp only [tokCh, Bool.or_eq_true, hd] at htok
      rcases htok with h' | h'
      · exact (Bool.false_ne_true h').elim
      · exact of_decide_eq_true h'
    subst hcc
    rfl
  simp only [grabTok] at h
  split at h
  · cases h
  · split at h
    case h_1 r2 heq =>
      split at h
      · cases h
        exact hrun
      case isFalse hds =>
        exfalso
        have hne : List.takeWhile Char.isDigit r2 ≠ [] := by
          intro hnil
          exact hds (by rw [hnil]; rfl)
        obtain ⟨d, hd⟩ := List.exists_mem_of_ne_nil _ hne
        have hdig := predOfTakeWhile hd
        have hmem : d ∈ ('.' :: r2) := List.mem_cons_of_mem _ (memOfTakeWhile hd)
        rw [← heq] at hmem
        have hfd : d.isDigit = false := hl d (memOfDrop hmem)
        rw [hfd] at hdig
        exact Bool.false_ne_true hdig
    case h_2 =>
      cases h
      exact hrun

/-- Helper: on a digit-free text, any token found by the bare-amount rule is
all commas. -/
theorem searchRule4NoDigit {l tok : List Char}
    (hl : ∀ c ∈ l, c.isDigit = false) (h : searchRule4 l = some tok) :
    tok.filter (fun c => c != ',') = [] := by
  induction l with
  | nil => simp [searchRule4] at h
  | cons c rest ih =>
    unfold searchRule4 at h
    split at h
    · obtain ⟨⟨t, r⟩, hg, ht⟩ := Option.map_eq_some'.mp h
      cases ht
      exact grabTokNoDigit hl hg
    · exact ih (fun x hx => hl x (List.mem_cons_of_mem c hx)) h

/-- Helper: on a digit-free text, any token found by the rule-3 match is all
commas. -/
theorem matchRule3AtNoDigit {l tok : List Char}
    (hl : ∀ c ∈ l, c.isDigit = false) (h : matchRule3At l = some tok) :
    tok.filter (fun c => c != ',') = [] := by
  unfold matchRule3At at h
  cases hp : dropPfxI "debited for ".toList l with
  | none => rw [hp] at h; cases h
  | some r =>
    rw [hp] at h
    dsimp only at h
    obtain ⟨⟨t, rr⟩, hg, ht⟩ := Option.map_eq_some'.mp h
    cases ht
    exact grabTokNoDigit
      (fun x hx => hl x (memOfDropPfxI hp (memOfDrop hx))) hg

/-- Helper: on a digit-free text, any token found by the rule-3 search is all
commas. -/
theorem searchRule3NoDigit {l tok : List Char}
    (hl : ∀ c ∈ l, c.isDigit = false) (h : searchRule3 l = some tok) :
    tok.filter (fun c => c != ',') = [] := by
  induction l with
  | nil => simp [searchRule3] at h
  | cons c rest ih =>
    unfold searchRule3 at h
    split at h
    case h_1 t heq =>
      cases h
      exact matchRule3AtNoDigit hl heq
    case h_2 =>
      exact ih (fun x hx => hl x (List.mem_cons_of_mem c hx)) h

/-- Helper: a successful rule-1 date capture starts with a digit of the
input. -/
theorem dateGrab1Digit {l ds : List Char} (h : dateGrab1 l = some ds) :
    ∃ c ∈ l, c.isDigit = true := by
  unfold dateGrab1 at h
  split at h
  case h_1 a b rest =>
    split at h
    case isTrue ha => exact ⟨a, List.mem_cons_self _ _, ha⟩
    case isFalse => cases h
  case h_2 => cases h

/-- Helper: a successful rule-2 date capture starts with a digit of the
input. -/
theorem dateGrab2Digit {l ds r : List Char} (h : dateGrab2 l = some (ds, r)) :
    ∃ c ∈ l, c.isDigit = true := by
  unfold dateGrab2 at h
  split at h
  case h_1 d1 d2 m1 m2 rest =>
    split at h
    case isTrue hd =>
      simp only [Bool.and_eq_true] at hd
      exact ⟨d1, List.mem_cons_self _ _, hd.1.1.1⟩
    case isFalse => cases h
  case h_2 => cases h

/-- Helper: a successful merchant/date split of rule 1 requires a digit in
the candidate region. -/
theorem tryMerchSplitsDigit {r : List Char} {j : Nat} {m ds : List Char}
    (h : tryMerchSplits r j = some (m, ds)) : ∃ c ∈ r, c.isDigit = true := by
  induction j with
  | zero => cases h
  | succ j ih =>
    unfold tryMerchSplits at h
    cases hp : dropPfxI " on ".toList (r.drop (j + 1)) with
    | none => rw [hp] at h; exact ih h
    | some r4 =>
      rw [hp] at h
      dsimp only at h
      cases hd : dateGrab1 r4 with
      | none => rw [hd] at h; exact ih h
      | some ds2 =>
        obtain ⟨c, hc, hdig⟩ := dateGrab1Digit hd
        exact ⟨c, memOfDrop (memOfDropPfxI hp hc), hdig⟩

/-- Helper: a successful rule-1 match requires a digit in the text. -/
theorem matchRule1AtDigit {l : List Char}
    {res : List Char × List Char × List Char}
    (h : matchRule1At l = some res) : ∃ c ∈ l, c.isDigit = true := by
  unfold matchRule1At at h
  cases h1 : dropPfxI "paid ".toList l with
  | none => rw [h1] at h; cases h
  | some r =>
    rw [h1] at h
    dsimp only at h
    cases h2 : grabTok (r.drop ((r.takeWhile prefChI).length)) with
    | none => rw [h2] at h; cases h
    | some tr =>
      obtain ⟨tok, r3⟩ := tr
      rw [h2] at h
      dsimp only at h
      cases h3 : dropPfxI " to ".toList r3 with
      | none => rw [h3] at h; cases h
      | some r4 =>
        rw [h3] at h
        dsimp only at h
        cases h4 : tryMerchSplits r4 ((r4.takeWhile wordCh).length) with
        | none => rw [h4] at h; cases h
        | some md =>
          obtain ⟨mm, ds⟩ := md
          obtain ⟨c, hc, hdig⟩ := tryMerchSplitsDigit h4
          refine ⟨c, ?_, hdig⟩
          exact memOfDropPfxI h1
            (memOfDrop (grabTokRestMem h2 c (memOfDropPfxI h3 hc)))

/-- Helper: a successful rule-1 search requires a digit in the text. -/
theorem searchRule1Digit {l : List Char} {res : List Char × List Char × List Char}
    (h : searchRule1 l = some res) : ∃ c ∈ l, c.isDigit = true := by
  induction l with
  | nil => simp [searchRule1] at h
  | cons c rest ih =>
    unfold searchRule1 at h
    split at h
    case h_1 t heq =>
      cases h
      exact matchRule1AtDigit heq
    case h_2 =>
      obtain ⟨x, hx, hdig⟩ := ih h
      exact ⟨x, List.mem_cons_of_mem c hx, hdig⟩

/-- Helper: a successful rule-2 match requires a digit in the text. -/
theorem matchRule2AtDigit {l : List Char}
    {res : List Char × List Char × Option (List Char)}
    (h : matchRule2At l = some res) : ∃ c ∈ l, c.isDigit = true := by
  unfold matchRule2At at h
  cases h1 : dropPfxI "debited for ".toList l with
  | none => rw [h1] at h; cases h
  | some r =>
    rw [h1] at h
    dsimp only at h
    cases h2 : grabTok (r.drop ((r.takeWhile prefChI).length)) with
    | none => rw [h2] at h; cases h
    | some tr =>
      obtain ⟨tok, r3⟩ := tr
      rw [h2] at h
      dsimp only at h
      cases h3 : dropPfxI " on ".toList r3 with
      | none => rw [h3] at h; cases h
      | some r4 =>
        rw [h3] at h
        dsimp only at h
        cases h4 : dateGrab2 r4 with
        | none => rw [h4] at h; cases h
        | some dr =>
          obtain ⟨ds, r5⟩ := dr
          obtain ⟨c, hc, hdig⟩ := dateGrab2Digit h4
          refine ⟨c, ?_, hdig⟩
          exact memOfDropPfxI h1
            (memOfDrop (grabTokRestMem h2 c (memOfDropPfxI h3 hc)))

/-- Helper: a successful rule-2 search requires a digit in the text. -/
theorem searchRule2Digit {l : List Char}
    {res : List Char × List Char × Option (List Char)}
    (h : searchRule2 l = some res) : ∃ c ∈ l, c.isDigit = true := by
  induction l with
  | nil => simp [searchRule2] at h
  | cons c rest ih =>
    unfold searchRule2 at h
    split at h
    case h_1 t heq =>
      cases h
      exact matchRule2AtDigit heq
    case h_2 =>
      obtain ⟨x, hx, hdig⟩ := ih h
      exact ⟨x, List.mem_cons_of_mem c hx, hdig⟩

/-- Claim C7 (corrected), counterexample: "hello, how are you?" contains no
digit, yet the bare-amount rule's pattern does fire — `[0-9,]+` matches the
bare comma — so the parse fails through the exception handler with the
"Parser error" message, not through the no-match branch. -/
theorem claim_c7_counterexample :
    (∀ c ∈ "hello, how are you?".toList, c.isDigit = false) ∧
    searchRule4 "hello, how are you?".toList = some [','] ∧
    parse_transaction "2026-02-03" "hello, how are you?" none =
      ParseResult.error floatErrMsg ∧
    floatErrMsg ≠ "Could not parse transaction" :=
  ⟨by decide, rfl, rfl, by decide⟩

/-- Claim C7 (amended): on every digit-free text the result is a failure with
no amount field — either no rule's pattern matches and the no-match failure is
returned, or a rule's pattern matches an all-comma token and the conversion
failure surfaces as the "Parser error" failure. -/
theorem claim_c7_amended_nodigit (today text : String) (sender : Option String)
    (h : ∀ c ∈ text.toList, c.isDigit = false) :
    ∃ msg, parse_transaction today text sender = ParseResult.error msg := by
  unfold parse_transaction
  cases h1 : searchRule1 text.toList with
  | some r =>
    obtain ⟨c, hc, hdig⟩ := searchRule1Digit h1
    rw [h c hc] at hdig
    exact (Bool.false_ne_true hdig).elim
  | none =>
    cases h2 : searchRule2 text.toList with
    | some r =>
      obtain ⟨c, hc, hdig⟩ := searchRule2Digit h2
      rw [h c hc] at hdig
      exact (Bool.false_ne_true hdig).elim
    | none =>
      cases h3 : searchRule3 text.toList with
      | some tok =>
        have hf : floatOfToken tok = none := by
          unfold floatOfToken
          rw [searchRule3NoDigit h h3]
          rfl
        exact ⟨floatErrMsg, by dsimp only; rw [hf]⟩
      | none =>
        cases h4 : searchRule4 text.toList with
        | some tok =>
          have hf : floatOfToken tok = none := by
            unfold floatOfToken
            rw [searchRule4NoDigit h h4]
            rfl
          exact ⟨floatErrMsg, by dsimp only; rw [hf]⟩
        | none => exact ⟨"Could not parse transaction", rfl⟩

/-- Claim C7, witness: the amended statement applied to the digit-free
scenario text. -/
theorem claim_c7_witness :
    ∃ msg, parse_transaction "2026-02-03" "hello, how are you?" none =
      ParseResult.error msg :=
  claim_c7_amended_nodigit "2026-02-03" "hello, how are you?" none (by decide)

/-- Claim C3 (corrected), counterexample: on
"500 debited for , on 11-01-26" the bank-SMS rule captures the all-comma
token ",", and the parse aborts with the "Parser error" failure; the
cascade-on-malformed semantics described by the claim would instead skip the
rule and succeed on the bare-amount rule with 500. -/
theorem claim_c3_counterexample :
    parse_transaction "2026-02-03" "500 debited for , on 11-01-26" none =
      ParseResult.error floatErrMsg ∧
    parse_transaction_claimC3 "2026-02-03" "500 debited for , on 11-01-26" none =
      ParseResult.success ((500 : ℕ) : ℚ) "2026-02-03" "Unknown"
        "500 debited for , on 11-01-26" false (3/10) "Other" :=
  ⟨rfl, rfl⟩

/-- Claim C3 (amended): when the winning rule's captured token strips to the
empty string (an all-comma token), `parse_transaction` aborts with the
structured "Parser error" failure produced by the top-level exception
handler; it does not cascade to the next rule. -/
theorem claim_c3_amended_abort (today text : String) (sender : Option String) :
    (∀ tok merch ds, searchRule1 text.toList = some (tok, merch, ds) →
      tok.filter (fun c => c != ',') = [] →
      parse_transaction today text sender = ParseResult.error floatErrMsg) ∧
    (searchRule1 text.toList = none →
      ∀ tok ds mo, searchRule2 text.toList = some (tok, ds, mo) →
      tok.filter (fun c => c != ',') = [] →
      parse_transaction today text sender = ParseResult.error floatErrMsg) ∧
    (searchRule1 text.toList = none → searchRule2 text.toList = none →
      ∀ tok, searchRule3 text.toList = some tok →
      tok.filter (fun c => c != ',') = [] →
      parse_transaction today text sender = ParseResult.error floatErrMsg) ∧
    (searchRule1 text.toList = none → searchRule2 text.toList = none →
      searchRule3 text.toList = none →
      ∀ tok, searchRule4 text.toList = some tok →
      tok.filter (fun c => c != ',') = [] →
      parse_transaction today text sender = ParseResult.error floatErrMsg) := by
  have hfl : ∀ tok : List Char, tok.filter (fun c => c != ',') = [] →
      floatOfToken tok = none := by
    intro tok ht
    unfold floatOfToken
    rw [ht]
    rfl
  refine ⟨?_, ?_, ?_, ?_⟩
  · intro tok merch ds h1 ht
    unfold parse_transaction
    rw [h1]
    dsimp only
    rw [hfl tok ht]
  · intro h1 tok ds mo h2 ht
    unfold parse_transaction
    rw [h1]
    dsimp only
    rw [h2]
    dsimp only
    rw [hfl tok ht]
  · intro h1 h2 tok h3 ht
    unfold parse_transaction
    rw [h1]
    dsimp only
    rw [h2]
    dsimp only
    rw [h3]
    dsimp only
    rw [hfl tok ht]
  · intro h1 h2 h3 tok h4 ht
    unfold parse_transaction
    rw [h1]
    dsimp only
    rw [h2]
    dsimp only
    rw [h3]
    dsimp only
    rw [h4]
    dsimp only
    rw [hfl tok ht]

/-- Claim C3, witness: the amended abort behaviour applied to the concrete
malformed bank SMS. -/
theorem claim_c3_witness :
    parse_transaction "2026-05-05" "500 debited for , on 11-01-26" none =
      ParseResult.error floatErrMsg :=
  (claim_c3_amended_abort "2026-05-05" "500 debited for , on 11-01-26" none).2.1
    rfl [','] "11-01-26".toList none rfl rfl

/-- Helper: `detect_bank_sender` only ever returns one of its four literal
result pairs. -/
theorem detectCases (s : String) :
    detect_bank_sender s = (false, 3/10) ∨ detect_bank_sender s = (true, 95/100) ∨
    detect_bank_sender s = (true, 9/10) ∨ detect_bank_sender s = (true, 8/10) := by
  unfold detect_bank_sender
  split_ifs <;> simp

/-- Helper: the confidence returned by `detect_bank_sender` lies in `[0, 1]`. -/
theorem detectConfBounds (s : String) :
    0 ≤ (detect_bank_sender s).2 ∧ (detect_bank_sender s).2 ≤ 1 := by
  rcases detectCases s with h | h | h | h <;> rw [h] <;> constructor <;> norm_num

/-- Helper: `floatCore` only returns non-negative values. -/
theorem floatCoreNonneg {t : List Char} {a : ℚ} (h : floatCore t = some a) : 0 ≤ a := by
  simp only [floatCore] at h
  split at h
  · cases h
  · split at h
    · cases h
      positivity
    case h_2 fs heq =>
      split at h
      · cases h
        positivity
      · cases h
    case h_3 => cases h

/-- Helper: amounts extracted from captured tokens are non-negative. -/
theorem floatOfTokenNonneg {tok : List Char} {a : ℚ}
    (h : floatOfToken tok = some a) : 0 ≤ a :=
  floatCoreNonneg h

/-- Helper: every category suggestion is a member of the fixed category set. -/
theorem getCategoryMem (m : String) : get_category_from_merchant m ∈ categorySet := by
  unfold get_category_from_merchant
  split_ifs <;> decide

/-- Claim C10 (confirmed, implicit): in every success result the confidence
is one of 0.3, 0.8, 0.9, 0.95, and `is_bank` is false exactly when the
confidence is 0.3. -/
theorem claim_c10_confidence_values (today text : String) (sender : Option String)
    (a : ℚ) (dt m n : String) (ib : Bool) (cf : ℚ) (cat : String)
    (h : parse_transaction today text sender =
      ParseResult.success a dt m n ib cf cat) :
    (cf = 3/10 ∨ cf = 8/10 ∨ cf = 9/10 ∨ cf = 95/100) ∧
    (ib = false ↔ cf = 3/10) := by
  have hd := detectCases (pyStrip (sender.getD ""))
  unfold parse_transaction at h
  cases h1 : searchRule1 text.toList with
  | some r =>
    obtain ⟨tok, merch, ds⟩ := r
    rw [h1] at h
    dsimp only at h
    cases h2 : floatOfToken tok with
    | none => rw [h2] at h; dsimp only at h; simp at h
    | some amt =>
      rw [h2] at h
      dsimp only at h
      injection h with e1 e2 e3 e4 e5 e6 e7
      subst e5
      subst e6
      refine ⟨Or.inr (Or.inr (Or.inl rfl)), ?_, ?_⟩
      · intro h'
        exact absurd h' (by decide)
      · intro h'
        exfalso
        norm_num at h'
  | none =>
    rw [h1] at h
    dsimp only at h
    cases h2 : searchRule2 text.toList with
    | some r =>
      obtain ⟨tok, ds, mo⟩ := r
      rw [h2] at h
      dsimp only at h
      cases h3 : floatOfToken tok with
      | none => rw [h3] at h; dsimp only at h; simp at h
      | some amt =>
        rw [h3] at h
        dsimp only at h
        injection h with e1 e2 e3 e4 e5 e6 e7
        subst e5
        subst e6
        rcases hd with hd | hd | hd | hd <;> rw [hd] <;> dsimp only <;>
          refine ⟨?_, ?_⟩ <;> simp <;> norm_num
    | none =>
      rw [h2] at h
      dsimp only at h
      cases h3 : searchRule3 text.toList with
      | some tok =>
        rw [h3] at h
        dsimp only at h
        cases h4 : floatOfToken tok with
        | none => rw [h4] at h; dsimp only at h; simp at h
        | some amt =>
          rw [h4] at h
          dsimp only at h
          injection h with e1 e2 e3 e4 e5 e6 e7
          subst e5
          subst e6
          rcases hd with hd | hd | hd | hd <;> rw [hd] <;> dsimp only <;>
            refine ⟨?_, ?_⟩ <;> simp <;> norm_num
      | none =>
        rw [h3] at h
        dsimp only at h
        cases h4 : searchRule4 text.toList with
        | some tok =>
          rw [h4] at h
          dsimp only at h
          cases h5 : floatOfToken tok with
          | none => rw [h5] at h; dsimp only at h; simp at h
          | some amt =>
            rw [h5] at h
            dsimp only at h
            injection h with e1 e2 e3 e4 e5 e6 e7
            subst e5
            subst e6
            rcases hd with hd | hd | hd | hd <;> rw [hd] <;> dsimp only <;>
              refine ⟨?_, ?_⟩ <;> simp <;> norm_num
        | none =>
          rw [h4] at h
          dsimp only at h
          simp at h

/-- Claim C10, witness: the invariant applied to the concrete rule-1 success
on the Swiggy scenario. -/
theorem claim_c10_witness :
    ((9/10 : ℚ) = 3/10 ∨ (9/10 : ℚ) = 8/10 ∨ (9/10 : ℚ) = 9/10 ∨ (9/10 : ℚ) = 95/100) ∧
    (true = false ↔ (9/10 : ℚ) = 3/10) :=
  claim_c10_confidence_values "2026-01-01" "paid ₹250.00 to Swiggy on 5 Mar 2026" none
    (((250 : ℕ) : ℚ) + ((0 : ℕ) : ℚ)/(10 : ℚ)^2) "2026-03-05" "Swiggy"
    "paid ₹250.00 to Swiggy on 5 Mar 2026" true (9/10) "Food & Dining" rfl

/-- Claim C5 (confirmed): `parse_transaction` is total and always returns
either a failure carrying only a message, or a success whose amount is a
non-negative decimal, whose note is the verbatim input text, whose confidence
lies in `[0, 1]` (and is present together with `is_bank` by construction of
the success shape), and whose suggested category belongs to the fixed
category set. -/
theorem claim_c5_wellformed (today text : String) (sender : Option String) :
    (∃ msg, parse_transaction today text sender = ParseResult.error msg) ∨
    (∃ a dt m ib cf cat,
      parse_transaction today text sender = ParseResult.success a dt m text ib cf cat ∧
      0 ≤ a ∧ 0 ≤ cf ∧ cf ≤ 1 ∧ cat ∈ categorySet) := by
  have hb := detectConfBounds (pyStrip (sender.getD ""))
  unfold parse_transaction
  cases h1 : searchRule1 text.toList with
  | some r =>
    obtain ⟨tok, merch, ds⟩ := r
    dsimp only
    cases h2 : floatOfToken tok with
    | none => exact Or.inl ⟨floatErrMsg, rfl⟩
    | some amt =>
      refine Or.inr ⟨amt, (strptime_dBY ds).getD today, pyStrip (String.mk merch),
        true, 9/10, get_category_from_merchant (pyStrip (String.mk merch)),
        rfl, floatOfTokenNonneg h2, by norm_num, by norm_num, getCategoryMem _⟩
  | none =>
    dsimp only
    cases h2 : searchRule2 text.toList with
    | some r =>
      obtain ⟨tok, ds, mo⟩ := r
      dsimp only
      cases h3 : floatOfToken tok with
      | none => exact Or.inl ⟨floatErrMsg, rfl⟩
      | some amt =>
        have hcat : (if pyStrip (String.mk (mo.getD [])) = "" then "Bills & Utilities"
            else get_category_from_merchant (pyStrip (String.mk (mo.getD [])))) ∈
            categorySet := by
          split_ifs
          · decide
          · exact getCategoryMem _
        exact Or.inr ⟨amt, (strptime_rule2 ds).getD today, _,
          (detect_bank_sender (pyStrip (sender.getD ""))).1,
          (detect_bank_sender (pyStrip (sender.getD ""))).2, _,
          rfl, floatOfTokenNonneg h3, hb.1, hb.2, hcat⟩
    | none =>
      dsimp only
      cases h3 : searchRule3 text.toList with
      | some tok =>
        dsimp only
        cases h4 : floatOfToken tok with
        | none => exact Or.inl ⟨floatErrMsg, rfl⟩
        | some amt =>
          exact Or.inr ⟨amt, today, "Bank",
            (detect_bank_sender (pyStrip (sender.getD ""))).1,
            (detect_bank_sender (pyStrip (sender.getD ""))).2, "Bills & Utilities",
            rfl, floatOfTokenNonneg h4, hb.1, hb.2, by decide⟩
      | none =>
        dsimp only
        cases h4 : searchRule4 text.toList with
        | some tok =>
          dsimp only
          cases h5 : floatOfToken tok with
          | none => exact Or.inl ⟨floatErrMsg, rfl⟩
          | some amt =>
            exact Or.inr ⟨amt, today, "Unknown",
              (detect_bank_sender (pyStrip (sender.getD ""))).1,
              (detect_bank_sender (pyStrip (sender.getD ""))).2, "Other",
              rfl, floatOfTokenNonneg h5, hb.1, hb.2, by decide⟩
        | none => exact Or.inl ⟨"Could not parse transaction", rfl⟩
